import Mathlib

/-!
# Verification of the LLC4320 ocean-data service (tilenl/IOI-Project)

Shallow embedding of the Python sources:
* `src/server/data_service.py` — `DataService`: field-URL resolution,
  lat/lon region translation, data extraction, serialization;
* `src/server/app.py` — Flask request handlers (parameter parsing,
  error-to-status mapping);
* `src/scripts/loading_data.py` — batch loader.

Conventions of the embedding:
* lat/lon coordinate values are `Rat` (the Python code compares IEEE doubles
  with `>=`/`<=` only; ordered-field comparisons on `Rat` model this);
* float32 array elements are represented by their 32-bit patterns as `Nat`
  (`< 2^32`); byte strings are `List Nat` with entries `< 256`;
* Python exceptions become the `PyError` sum; a function that can raise
  returns `Except PyError α`;
* the external OpenVisus read primitive (`db.db.read`) is a parameter
  `read : ReadCall → Except String NDArray` of every operation that uses it.
-/

namespace LLC

/-- Python exception classes that appear in the sources. -/
inductive PyError where
  | valueError (msg : String)
  | typeError (msg : String)
  | runtimeError (msg : String)
  | attributeError (msg : String)
  | fileNotFoundError (msg : String)
deriving DecidableEq, Repr

/-- `str(e)` for the exceptions above (the message). -/
def PyError.msg : PyError → String
  | .valueError m => m
  | .typeError m => m
  | .runtimeError m => m
  | .attributeError m => m
  | .fileNotFoundError m => m

/-- Whether the exception is caught by `except (ValueError, TypeError)`
(app.py lines 105, 161, 201). -/
def PyError.isValueOrType : PyError → Bool
  | .valueError _ => true
  | .typeError _ => true
  | _ => false

/-- A 2D coordinate array (`lat_center` / `lon_center` in the sources),
row-major: outer list = rows (y axis), inner = columns (x axis). -/
abbrev Grid := List (List Rat)

/-- The index rectangle computed by the region translator
(`x_min`, `x_max`, `y_min`, `y_max` of data_service.py lines 174-177;
upper bounds exclusive). -/
structure Rect where
  xMin : Nat
  xMax : Nat
  yMin : Nat
  yMax : Nat
deriving DecidableEq, Repr

/-- A numpy array, modelled by its shape and its row-major flat contents;
elements are float32 bit patterns (`< 2^32`). -/
structure NDArray where
  shape : List Nat
  data : List Nat
deriving DecidableEq, Repr

/-- `a[0]` on a numpy array: drops the leading axis and keeps the first
block of the remaining shape's size. -/
def NDArray.first (a : NDArray) : NDArray :=
  { shape := a.shape.tail, data := a.data.take a.shape.tail.prod }

/-- The keyword arguments of the external read primitive
`db.db.read(time=…, x=…, y=…, z=…, quality=…)`
(data_service.py lines 185-191, loading_data.py lines 114-116). -/
structure ReadCall where
  time : Int
  x : Nat × Nat
  y : Nat × Nat
  z : Int × Int
  quality : Int
deriving DecidableEq, Repr

/-! ## Region translator (data_service.py lines 161-181,
loading_data.py lines 89-109: the same code in both files) -/

/-- The boolean mask at grid cell `(i, j)` (row `i`, column `j`):
`(lat_center >= lat_range[0]) & (lat_center <= lat_range[1]) &
(lon_center >= lon_range[0]) & (lon_center <= lon_range[1])`
— inclusive on all four box edges. -/
def maskAt (lat_center lon_center : Grid) (lat_range lon_range : Rat × Rat)
    (i j : Nat) : Bool :=
  let la := (lat_center.getD i []).getD j 0
  let lo := (lon_center.getD i []).getD j 0
  decide (lat_range.1 ≤ la) && decide (la ≤ lat_range.2) &&
  decide (lon_range.1 ≤ lo) && decide (lo ≤ lon_range.2)

/-- `np.where(mask)` as the row-major list of `(y, x) = (row, column)`
index pairs at which the mask holds. -/
def maskIndices (lat_center lon_center : Grid) (lat_range lon_range : Rat × Rat) :
    List (Nat × Nat) :=
  (List.range lat_center.length).flatMap fun i =>
    (List.range ((lat_center.getD i []).length)).filterMap fun j =>
      if maskAt lat_center lon_center lat_range lon_range i j then some (i, j) else none

/-- `x_min = x_indices.min()`, `x_max = x_indices.max() + 1`,
`y_min = y_indices.min()`, `y_max = y_indices.max() + 1` over the matching
index pairs; `none` when the match list is empty (numpy `min`/`max` are
only taken when `len(x_indices) != 0`). -/
def boundingRect : List (Nat × Nat) → Option Rect
  | [] => none
  | p :: ps =>
    some { xMin := (ps.map Prod.snd).foldl Nat.min p.2
           xMax := (ps.map Prod.snd).foldl Nat.max p.2 + 1
           yMin := (ps.map Prod.fst).foldl Nat.min p.1
           yMax := (ps.map Prod.fst).foldl Nat.max p.1 + 1 }

/-- The lat/lon subgrid `g[y_min:y_max, x_min:x_max]`
(data_service.py lines 180-181). -/
def sliceGrid (g : Grid) (r : Rect) : Grid :=
  ((g.drop r.yMin).take (r.yMax - r.yMin)).map fun row =>
    (row.drop r.xMin).take (r.xMax - r.xMin)

/-- The index-rectangle part of `_extract_data_by_latlon_range`
(data_service.py lines 161-177): mask, `np.where`, the empty check that
raises `ValueError("No data found in the given lat/lon range.")`, and the
min/max+1 rectangle. -/
def extractRegionRect (lat_center lon_center : Grid) (lat_range lon_range : Rat × Rat) :
    Except PyError Rect :=
  match boundingRect (maskIndices lat_center lon_center lat_range lon_range) with
  | none => .error (.valueError "No data found in the given lat/lon range.")
  | some r => .ok r

/-- `_extract_data_by_latlon_range` (data_service.py lines 119-194):
translate the box to an index rectangle, slice the coordinate subgrids,
issue the external read with the rectangle and the given `z_range` /
`quality` / `timestep`, and wrap any read failure into
`RuntimeError("Failed to read data at timestep N: …")`. -/
def extract_data_by_latlon_range (read : ReadCall → Except String NDArray)
    (lat_center lon_center : Grid) (lat_range lon_range : Rat × Rat)
    (z_range : Int × Int) (quality : Int) (timestep : Int) :
    Except PyError (NDArray × Grid × Grid) :=
  match boundingRect (maskIndices lat_center lon_center lat_range lon_range) with
  | none => .error (.valueError "No data found in the given lat/lon range.")
  | some r =>
    match read { time := timestep, x := (r.xMin, r.xMax), y := (r.yMin, r.yMax),
                 z := z_range, quality := quality } with
    | .ok d => .ok (d, sliceGrid lat_center r, sliceGrid lon_center r)
    | .error e =>
      .error (.runtimeError ("Failed to read data at timestep " ++ toString timestep ++ ": " ++ e))

/-! ## Field-name resolution (data_service.py lines 17-24 and 86-117) -/

def saltURL : String :=
  "https://nsdf-climate1-origin.nationalresearchplatform.org:50098/nasa/nsdf/climate1/llc4320/idx/salt/salt_llc4320_x_y_depth.idx"

def thetaURL : String :=
  "https://nsdf-climate1-origin.nationalresearchplatform.org:50098/nasa/nsdf/climate1/llc4320/idx/theta/theta_llc4320_x_y_depth.idx"

def wURL : String :=
  "https://nsdf-climate1-origin.nationalresearchplatform.org:50098/nasa/nsdf/climate1/llc4320/idx/w/w_llc4320_x_y_depth.idx"

/-- The `FIELD_URLS` dict (data_service.py lines 17-24), in source order. -/
def FIELD_URLS : List (String × String) :=
  [("salinity", saltURL), ("temperature", thetaURL), ("vertical_velocity", wURL),
   ("salt", saltURL), ("theta", thetaURL), ("w", wURL)]

/-- Model of Python's `str.lower()` on the ASCII range (all `FIELD_URLS`
keys are ASCII). -/
def pyLowerChar (c : Char) : Char :=
  if c.toNat ≥ 65 ∧ c.toNat ≤ 90 then Char.ofNat (c.toNat + 32) else c

/-- Model of Python's `str.lower()` (ASCII range). -/
def pyLower (s : String) : String := ⟨s.data.map pyLowerChar⟩

/-- The URL-resolution part of `_get_dataset` (data_service.py lines 99-111):
`field_lower = field.lower()`; `None` models the
`ValueError("Unknown field: …")` raised when the lowered name is not a
`FIELD_URLS` key. -/
def fieldURL (field : String) : Option String :=
  FIELD_URLS.lookup (pyLower field)

/-! ## Serialization (data_service.py lines 288-304 and 370-384) -/

/-- A JSON-serializable Python value produced by `ndarray.tolist()`:
a float32 number (by bit pattern) or a nested list. -/
inductive PyVal where
  | num (bits : Nat)
  | list (elems : List PyVal)
deriving Repr

/-- `ndarray.tolist()` on a row-major flat representation, driven by the
shape; `fuel` is the number of axes still to peel (`shape.length` at the
top call, so the `fuel = 0` row is unreachable). -/
def tolistF : Nat → List Nat → List Nat → PyVal
  | _, [], d => .num (d.headD 0)
  | 0, _ :: _, _ => .num 0
  | fuel + 1, n :: rest, d =>
    .list ((List.range n).map fun i =>
      tolistF fuel rest ((d.drop (i * rest.prod)).take rest.prod))

/-- `ndarray.tolist()`: nested lists of the array's values. -/
def tolist (shape d : List Nat) : PyVal := tolistF shape.length shape d

/-- The serialized `data` member of a response: either
`{format: "array", data: nested-lists}` or
`{format: "base64", dtype: "float32", shape: …, data: base64-text}`
(the `text` field holds the ASCII codes of the base64 string). -/
inductive DataPayload where
  | arrayFmt (values : PyVal)
  | base64Fmt (dtype : String) (shape : List Nat) (text : List Nat)
deriving Repr

/-- `ndarray.astype(np.float32).tobytes()` for one element: the four
little-endian bytes of a float32 bit pattern (native order on the x86
hosts this code targets). -/
def f32ToBytes (v : Nat) : List Nat :=
  [v % 256, v / 256 % 256, v / 65536 % 256, v / 16777216 % 256]

/-- `ndarray.astype(np.float32).tobytes()`: concatenated element bytes. -/
def arrToBytes (vs : List Nat) : List Nat := vs.flatMap f32ToBytes

/-- `np.frombuffer(b, dtype=np.float32)`: regroup bytes into little-endian
32-bit patterns (the client-side decode direction of the round trip). -/
def bytesToF32s : List Nat → List Nat
  | b0 :: b1 :: b2 :: b3 :: rest =>
    (b0 + b1 * 256 + b2 * 65536 + b3 * 16777216) :: bytesToF32s rest
  | _ => []

/-- The RFC 4648 base64 alphabet as ASCII codes (`A-Z`, `a-z`, `0-9`,
`+`, `/`), as used by Python's `base64.b64encode`. -/
def b64Table : List Nat :=
  (List.range 26).map (· + 65) ++ (List.range 26).map (· + 97) ++
  (List.range 10).map (· + 48) ++ [43, 47]

/-- Alphabet character for a sextet. -/
def sextetChar (s : Nat) : Nat := b64Table.getD s 0

/-- Inverse alphabet lookup. -/
def charSextet (c : Nat) : Nat := b64Table.indexOf c

/-- `base64.b64encode`: three bytes to four characters, `'='` (61) padding
for a final one- or two-byte group. -/
def b64encode : List Nat → List Nat
  | [] => []
  | [a] => [sextetChar (a / 4), sextetChar (a % 4 * 16), 61, 61]
  | [a, b] =>
    [sextetChar (a / 4), sextetChar (a % 4 * 16 + b / 16), sextetChar (b % 16 * 4), 61]
  | a :: b :: c :: rest =>
    sextetChar (a / 4) :: sextetChar (a % 4 * 16 + b / 16) ::
    sextetChar (b % 16 * 4 + c / 64) :: sextetChar (c % 64) :: b64encode rest

/-- `base64.b64decode` on well-padded input: four characters to three
bytes, fewer at a padded final group. -/
def b64decode : List Nat → List Nat
  | c1 :: c2 :: c3 :: c4 :: rest =>
    if c3 = 61 then
      [charSextet c1 * 4 + charSextet c2 / 16]
    else if c4 = 61 then
      [charSextet c1 * 4 + charSextet c2 / 16,
       charSextet c2 % 16 * 16 + charSextet c3 / 4]
    else
      (charSextet c1 * 4 + charSextet c2 / 16) ::
      (charSextet c2 % 16 * 16 + charSextet c3 / 4) ::
      (charSextet c3 % 4 * 64 + charSextet c4) :: b64decode rest
  | _ => []

/-- The serialization block shared verbatim by `get_data_slice`
(data_service.py lines 288-304) and `get_timestep_data` (lines 370-384):
`if format_type == "base64"` build the base64 payload, **else** nested
lists — any other `format_type` value falls through to `"array"`. -/
def serializeData (format_type : String) (a : NDArray) : DataPayload :=
  if format_type = "base64" then
    .base64Fmt "float32" a.shape (b64encode (arrToBytes a.data))
  else
    .arrayFmt (tolist a.shape a.data)

/-! ## DataService operations (data_service.py lines 236-399) -/

/-- The dict returned by `get_data_slice` (data_service.py lines 306-319). -/
structure SliceResponse where
  field : String
  timestep : Int
  depth_level : Int
  dataOut : DataPayload
  latitude : Grid
  longitude : Grid
  shape : List Nat
  lat_range : Rat × Rat
  lon_range : Rat × Rat
  quality : Int
deriving Repr

/-- The dict returned by `get_timestep_data` (data_service.py lines 386-399). -/
structure TimestepResponse where
  field : String
  timestep : Int
  dataOut : DataPayload
  latitude : Grid
  longitude : Grid
  shape : List Nat
  lat_range : Rat × Rat
  lon_range : Rat × Rat
  z_range : Int × Int
  quality : Int
deriving Repr

/-- `DataService.get_data_slice` (data_service.py lines 236-319).
`read` abstracts the per-URL external dataset (`self._get_dataset` keyed
by the resolved URL); `lat_center`/`lon_center` are the coordinate grids
loaded by `_load_coordinates`. Unknown field names raise `ValueError`
(lines 101-104); `z_range = [depth_level, depth_level + 1]` (line 274);
the result drops the singleton time and depth axes (lines 281-286). -/
def get_data_slice (read : String → ReadCall → Except String NDArray)
    (lat_center lon_center : Grid) (field : String) (timestep depth_level : Int)
    (lat_range lon_range : Rat × Rat) (quality : Int) (format_type : String) :
    Except PyError SliceResponse :=
  match fieldURL field with
  | none => .error (.valueError ("Unknown field: " ++ field ++
      ". Available fields: " ++ toString (FIELD_URLS.map Prod.fst)))
  | some url =>
    let z_range : Int × Int := (depth_level, depth_level + 1)
    match extract_data_by_latlon_range (read url) lat_center lon_center
        lat_range lon_range z_range quality timestep with
    | .error e => .error e
    | .ok (data, lat, lon) =>
      let data_slice :=
        if data.shape.length = 4 then data.first.first
        else if data.shape.length = 3 then data.first
        else data
      .ok { field := field, timestep := timestep, depth_level := depth_level,
            dataOut := serializeData format_type data_slice,
            latitude := lat, longitude := lon,
            shape := data_slice.shape,
            lat_range := lat_range, lon_range := lon_range, quality := quality }

/-- `DataService.get_timestep_data` (data_service.py lines 321-399):
like the slice but with a caller-supplied `z_range`, dropping only the
singleton time axis (lines 365-368). -/
def get_timestep_data (read : String → ReadCall → Except String NDArray)
    (lat_center lon_center : Grid) (field : String) (timestep : Int)
    (lat_range lon_range : Rat × Rat) (z_range : Int × Int) (quality : Int)
    (format_type : String) : Except PyError TimestepResponse :=
  match fieldURL field with
  | none => .error (.valueError ("Unknown field: " ++ field ++
      ". Available fields: " ++ toString (FIELD_URLS.map Prod.fst)))
  | some url =>
    match extract_data_by_latlon_range (read url) lat_center lon_center
        lat_range lon_range z_range quality timestep with
    | .error e => .error e
    | .ok (data, lat, lon) =>
      let timestep_data :=
        if data.shape.length = 4 then data.first
        else data
      .ok { field := field, timestep := timestep,
            dataOut := serializeData format_type timestep_data,
            latitude := lat, longitude := lon,
            shape := timestep_data.shape,
            lat_range := lat_range, lon_range := lon_range,
            z_range := z_range, quality := quality }

/-- The data-carrying part of a slice response (everything except the
echoed request parameters such as the raw `field` string). -/
def SliceResponse.dataPart (r : SliceResponse) : DataPayload × Grid × Grid × List Nat :=
  (r.dataOut, r.latitude, r.longitude, r.shape)

/-- The data-carrying part of a timestep response. -/
def TimestepResponse.dataPart (r : TimestepResponse) : DataPayload × Grid × Grid × List Nat :=
  (r.dataOut, r.latitude, r.longitude, r.shape)

/-! ## Flask request handlers (app.py) -/

/-- Split a character list at the first `'.'` (helper for float parsing):
returns the part before the dot and, when a dot exists, the part after it. -/
def splitDot : List Char → List Char × Option (List Char)
  | [] => ([], none)
  | c :: rest =>
    if c = '.' then ([], some rest)
    else
      let (a, b) := splitDot rest
      (c :: a, b)

/-- Parse a nonempty all-digit character list as a `Nat`. -/
def parseNatDigits : List Char → Option Nat
  | [] => none
  | cs =>
    cs.foldl (fun acc c =>
      match acc with
      | some a => if c.isDigit then some (a * 10 + (c.toNat - 48)) else none
      | none => none) (some 0)

/-- Unsigned decimal: `digits`, `digits.digits`, `.digits` or `digits.`. -/
def parseUFloat (cs : List Char) : Option Rat :=
  match splitDot cs with
  | (ip, none) => (parseNatDigits ip).map (fun n => (n : Rat))
  | ([], some []) => none
  | (ip, some fp) => do
    let ipv ← if ip.isEmpty then some 0 else parseNatDigits ip
    let fpv ← if fp.isEmpty then some 0 else parseNatDigits fp
    some ((ipv : Rat) + (fpv : Rat) / ((10 : Rat) ^ fp.length))

/-- Model of Python's `float(str)` on plain decimal literals:
optional sign, digits with an optional fractional part; `none` models
`ValueError` on anything else. -/
def parseFloatLit (s : String) : Option Rat :=
  match s.data with
  | '-' :: rest => (parseUFloat rest).map Neg.neg
  | '+' :: rest => parseUFloat rest
  | cs => parseUFloat cs

/-- Model of Python's `int(str)` on plain decimal literals. -/
def parseIntLit (s : String) : Option Int :=
  match s.data with
  | '-' :: rest => (parseNatDigits rest).map (fun n => -(n : Int))
  | '+' :: rest => (parseNatDigits rest).map (fun n => (n : Int))
  | cs => (parseNatDigits cs).map (fun n => (n : Int))

/-- `request.args.get(k)`: the first query-string value bound to `k`. -/
def getArg (args : List (String × String)) (k : String) : Option String :=
  (args.find? fun p => p.1 == k).map Prod.snd

/-- `float(request.args.get(k))` for a required parameter: a missing value
is `float(None)` → `TypeError`; an unparseable string → `ValueError`. -/
def pyFloatArg (v : Option String) : Except PyError Rat :=
  match v with
  | none =>
    .error (.typeError "float() argument must be a string or a real number, not 'NoneType'")
  | some s =>
    match parseFloatLit s with
    | some q => .ok q
    | none => .error (.valueError ("could not convert string to float: '" ++ s ++ "'"))

/-- `int(request.args.get(k, d))` for an optional integer parameter:
absent → the integer default unchanged; present but unparseable →
`ValueError`. -/
def pyIntArg (v : Option String) (dflt : Int) : Except PyError Int :=
  match v with
  | none => .ok dflt
  | some s =>
    match parseIntLit s with
    | some n => .ok n
    | none => .error (.valueError ("invalid literal for int() with base 10: '" ++ s ++ "'"))

/-- The parsed query parameters of `/api/data/slice`. -/
structure SliceParams where
  field : String
  timestep : Int
  depth_level : Int
  quality : Int
  format_type : String
  lat_range : Rat × Rat
  lon_range : Rat × Rat
deriving Repr

/-- Parameter parsing of the `/api/data/slice` handler (app.py lines
78-91), in source order: `field` (default `"salinity"`), `timestep`,
`depth_level`, `quality` as ints, `format`, then the four required
lat/lon floats. -/
def parseSliceArgs (args : List (String × String)) : Except PyError SliceParams := do
  let field := (getArg args "field").getD "salinity"
  let timestep ← pyIntArg (getArg args "timestep") 0
  let depth_level ← pyIntArg (getArg args "depth_level") 0
  let quality ← pyIntArg (getArg args "quality") (-12)
  let format_type := (getArg args "format").getD "array"
  let lat_min ← pyFloatArg (getArg args "lat_min")
  let lat_max ← pyFloatArg (getArg args "lat_max")
  let lon_min ← pyFloatArg (getArg args "lon_min")
  let lon_max ← pyFloatArg (getArg args "lon_max")
  pure { field := field, timestep := timestep, depth_level := depth_level,
         quality := quality, format_type := format_type,
         lat_range := (lat_min, lat_max), lon_range := (lon_min, lon_max) }

/-- The parsed query parameters of `/api/data/timestep`. -/
structure TimestepParams where
  field : String
  timestep : Int
  z_range : Int × Int
  quality : Int
  format_type : String
  lat_range : Rat × Rat
  lon_range : Rat × Rat
deriving Repr

/-- Parameter parsing of the `/api/data/timestep` handler (app.py lines
133-148): `field`, `timestep`, `z_min` (default 0), `z_max` (default 1),
`quality`, `format`, then the four required lat/lon floats. -/
def parseTimestepArgs (args : List (String × String)) : Except PyError TimestepParams := do
  let field := (getArg args "field").getD "salinity"
  let timestep ← pyIntArg (getArg args "timestep") 0
  let z_min ← pyIntArg (getArg args "z_min") 0
  let z_max ← pyIntArg (getArg args "z_max") 1
  let quality ← pyIntArg (getArg args "quality") (-12)
  let format_type := (getArg args "format").getD "array"
  let lat_min ← pyFloatArg (getArg args "lat_min")
  let lat_max ← pyFloatArg (getArg args "lat_max")
  let lon_min ← pyFloatArg (getArg args "lon_min")
  let lon_max ← pyFloatArg (getArg args "lon_max")
  pure { field := field, timestep := timestep, z_range := (z_min, z_max),
         quality := quality, format_type := format_type,
         lat_range := (lat_min, lat_max), lon_range := (lon_min, lon_max) }

/-- The `try/except` scheme shared by every API handler (app.py lines
47-54, 76-108, 131-164, 181-204): a successful body is jsonified with
status 200; `except (ValueError, TypeError)` yields 400 with
`{"error": "Invalid parameter: …"}`; `except Exception` yields 500 with
`{"error": str(e)}`. `Sum.inr msg` is the `{"error": msg}` body. -/
def runHandler {α : Type} (body : Except PyError α) : Nat × (α ⊕ String) :=
  match body with
  | .ok a => (200, Sum.inl a)
  | .error e =>
    if e.isValueOrType then (400, Sum.inr ("Invalid parameter: " ++ e.msg))
    else (500, Sum.inr e.msg)

/-- The `/api/data/slice` handler (app.py lines 57-108). -/
def sliceHandler (read : String → ReadCall → Except String NDArray)
    (lat_center lon_center : Grid) (args : List (String × String)) :
    Nat × (SliceResponse ⊕ String) :=
  runHandler (do
    let p ← parseSliceArgs args
    get_data_slice read lat_center lon_center p.field p.timestep p.depth_level
      p.lat_range p.lon_range p.quality p.format_type)

/-- The `/api/data/timestep` handler (app.py lines 111-164). -/
def timestepHandler (read : String → ReadCall → Except String NDArray)
    (lat_center lon_center : Grid) (args : List (String × String)) :
    Nat × (TimestepResponse ⊕ String) :=
  runHandler (do
    let p ← parseTimestepArgs args
    get_timestep_data read lat_center lon_center p.field p.timestep
      p.lat_range p.lon_range p.z_range p.quality p.format_type)

/-! ## The `/api/coordinates` route (app.py lines 167-204) -/

/-- The methods defined by `class DataService` (data_service.py lines
27-399), in source order. `get_coordinates` is *not* among them. -/
def dataServiceMethods : List String :=
  ["__init__", "_load_coordinates", "_get_dataset",
   "_extract_data_by_latlon_range", "get_metadata", "get_data_slice",
   "get_timestep_data"]

/-- The call `data_service.get_coordinates(lat_range=…, lon_range=…)`
(app.py lines 196-199): `DataService` defines no method named
`get_coordinates`, so Python attribute lookup raises `AttributeError`
regardless of the arguments. The result type records what the spec says
the operation would return (the lat and lon grids). -/
def dataService_get_coordinates (lat_range lon_range : Option (Rat × Rat)) :
    Except PyError (Grid × Grid) :=
  .error (.attributeError "'DataService' object has no attribute 'get_coordinates'")

/-- The `/api/coordinates` handler (app.py lines 167-204): the optional
range pairs are parsed all-or-nothing (lines 191-194), then the service
call is made. -/
def coordinatesHandler (args : List (String × String)) :
    Nat × ((Grid × Grid) ⊕ String) :=
  runHandler (do
    let lat_range ← match getArg args "lat_min", getArg args "lat_max" with
      | some a, some b => do
        let x ← pyFloatArg (some a)
        let y ← pyFloatArg (some b)
        pure (some (x, y))
      | _, _ => pure none
    let lon_range ← match getArg args "lon_min", getArg args "lon_max" with
      | some a, some b => do
        let x ← pyFloatArg (some a)
        let y ← pyFloatArg (some b)
        pure (some (x, y))
      | _, _ => pure none
    dataService_get_coordinates lat_range lon_range)

/-! ## Batch loader (loading_data.py) -/

/-- The timestep loop of `load_salinity_data` (loading_data.py lines
208-233): read timesteps `0, …, n-1` in order, collecting the arrays;
any read failure re-raises and aborts. `readT t` stands for
`extract_data_by_latlon_range(db, …, timestep=t)` at the fixed in-file
configuration. -/
def loadLoop (readT : Nat → Except PyError NDArray) : Nat → Except PyError (List NDArray)
  | 0 => .ok []
  | n + 1 =>
    match loadLoop readT n with
    | .error e => .error e
    | .ok acc =>
      match readT n with
      | .error e => .error e
      | .ok d => .ok (acc ++ [d])

/-- `load_salinity_data` (loading_data.py lines 122-245): fail if the
coordinate file is missing (lines 149-154); read timestep 0 once to probe
the shape (lines 173-182); then run the full loop and stack the results
(the stacked `(time, z, y, x)` array is the collected list). -/
def load_salinity_data (latlonFileExists : Bool)
    (readT : Nat → Except PyError NDArray) (n : Nat) : Except PyError (List NDArray) :=
  if latlonFileExists = false then
    .error (.fileNotFoundError "Latitude/longitude file not found")
  else
    match readT 0 with
    | .error e => .error e
    | .ok _ => loadLoop readT n

/-- The three files written by `save_data` (loading_data.py lines 264-280). -/
def outputFiles : List String :=
  ["salinity_data.npy", "salinity_lat.npy", "salinity_lon.npy"]

/-- The `__main__` block (loading_data.py lines 299-324): on success,
`save_data` writes the three output files and the process exits 0; any
exception skips `save_data` entirely and exits 1. Result: the list of
files written and the exit code. -/
def batchMain (latlonFileExists : Bool)
    (readT : Nat → Except PyError NDArray) (n : Nat) : List String × Nat :=
  match load_salinity_data latlonFileExists readT n with
  | .error _ => ([], 1)
  | .ok _ => (outputFiles, 0)

/-- The claim's 400 condition for `/api/data/slice`: a required lat/lon
parameter missing or not float-parseable, or an integer parameter
present but not int-parseable. -/
def sliceParamBad (args : List (String × String)) : Prop :=
  (∃ k ∈ (["lat_min", "lat_max", "lon_min", "lon_max"] : List String),
    getArg args k = none ∨ ∃ v, getArg args k = some v ∧ parseFloatLit v = none) ∨
  (∃ k ∈ (["timestep", "depth_level", "quality"] : List String),
    ∃ v, getArg args k = some v ∧ parseIntLit v = none)

/-- The claim's 400 condition for `/api/data/timestep`. -/
def timestepParamBad (args : List (String × String)) : Prop :=
  (∃ k ∈ (["lat_min", "lat_max", "lon_min", "lon_max"] : List String),
    getArg args k = none ∨ ∃ v, getArg args k = some v ∧ parseFloatLit v = none) ∨
  (∃ k ∈ (["timestep", "z_min", "z_max", "quality"] : List String),
    ∃ v, getArg args k = some v ∧ parseIntLit v = none)

/-- All slice parameters parse: the four lat/lon floats are present and
parseable, the three integers absent or parseable. -/
def sliceParamsGood (args : List (String × String)) : Prop :=
  (∀ k ∈ (["lat_min", "lat_max", "lon_min", "lon_max"] : List String),
    ∃ s q, getArg args k = some s ∧ parseFloatLit s = some q) ∧
  (∀ k ∈ (["timestep", "depth_level", "quality"] : List String),
    getArg args k = none ∨ ∃ s n, getArg args k = some s ∧ parseIntLit s = some n)

/-- All timestep parameters parse. -/
def timestepParamsGood (args : List (String × String)) : Prop :=
  (∀ k ∈ (["lat_min", "lat_max", "lon_min", "lon_max"] : List String),
    ∃ s q, getArg args k = some s ∧ parseFloatLit s = some q) ∧
  (∀ k ∈ (["timestep", "z_min", "z_max", "quality"] : List String),
    getArg args k = none ∨ ∃ s n, getArg args k = some s ∧ parseIntLit s = some n)

/-- Decidable equality for `Except`, so concrete handler and service
results can be checked by `decide`. -/
instance {ε α : Type} [DecidableEq ε] [DecidableEq α] : DecidableEq (Except ε α) := fun a b =>
  match a, b with
  | .ok x, .ok y =>
    if h : x = y then .isTrue (by rw [h])
    else .isFalse fun hc => h (Except.ok.inj hc)
  | .error x, .error y =>
    if h : x = y then .isTrue (by rw [h])
    else .isFalse fun hc => h (Except.error.inj hc)
  | .ok _, .error _ => .isFalse fun hc => Except.noConfusion hc
  | .error _, .ok _ => .isFalse fun hc => Except.noConfusion hc

/-! ## Concrete instances used by witnesses and counterexamples -/

/-- Formalizes the spec's phrase "box strictly inside the coordinate
grid's span": some grid value lies strictly below each lower box bound
and strictly above each upper box bound (so the box is strictly between
the grid's extremes on both axes). -/
def strictlyInsideSpan (lat lon : Grid) (latR lonR : Rat × Rat) : Bool :=
  lat.flatten.any (fun v => decide (v < latR.1)) &&
  lat.flatten.any (fun v => decide (latR.2 < v)) &&
  lon.flatten.any (fun v => decide (v < lonR.1)) &&
  lon.flatten.any (fun v => decide (lonR.2 < v))

/-- A 3×3 curvilinear latitude grid: the centre cell's latitude (9) jumps
outside the band of its neighbours. -/
def latC2 : Grid := [[1, 2, 3], [1, 9, 3], [1, 2, 3]]

/-- The matching 3×3 longitude grid: the bottom-right cell's longitude
(9) jumps outside the band of its neighbours. -/
def lonC2 : Grid := [[1, 2, 3], [1, 2, 3], [1, 2, 9]]

/-- A concrete external read used by witnesses: every call returns a
fixed `(1, 1, 1, 2)`-shaped float32 array (bit patterns of 1.0f and
0.0f). -/
def testRead : String → ReadCall → Except String NDArray :=
  fun _ _ => .ok { shape := [1, 1, 1, 2], data := [1065353216, 0] }

/-- A concrete external read that always fails (models a remote I/O
error from the OpenVisus library). -/
def testReadFail : String → ReadCall → Except String NDArray :=
  fun _ _ => .error "boom"

/-- A small concrete 2×2 array used by witnesses. -/
def ndEx : NDArray := { shape := [2, 2], data := [1, 2, 3, 4] }

/-- A 1×1 grid at the origin (used for empty-region instances). -/
def latPoint : Grid := [[0]]

/-- A 1×1 grid at the origin (used for empty-region instances). -/
def lonPoint : Grid := [[0]]

/-! ## Helper lemmas: folds, mask membership, bounding rectangles -/

theorem foldl_min_le_init (l : List Nat) (a : Nat) : l.foldl Nat.min a ≤ a := by
  induction l generalizing a with
  | nil => exact Nat.le_refl a
  | cons b t ih =>
    calc (b :: t).foldl Nat.min a = t.foldl Nat.min (Nat.min a b) := rfl
    _ ≤ Nat.min a b := ih _
    _ ≤ a := Nat.min_le_left _ _

theorem foldl_min_le_mem (l : List Nat) (a x : Nat) (hx : x ∈ l) :
    l.foldl Nat.min a ≤ x := by
  induction l generalizing a with
  | nil => cases hx
  | cons b t ih =>
    rcases List.mem_cons.mp hx with h | h
    · subst h
      calc (x :: t).foldl Nat.min a = t.foldl Nat.min (Nat.min a x) := rfl
      _ ≤ Nat.min a x := foldl_min_le_init _ _
      _ ≤ x := Nat.min_le_right _ _
    · exact ih _ h

theorem foldl_min_mem (l : List Nat) (a : Nat) :
    l.foldl Nat.min a = a ∨ l.foldl Nat.min a ∈ l := by
  induction l generalizing a with
  | nil => exact Or.inl rfl
  | cons b t ih =>
    have step : (b :: t).foldl Nat.min a = t.foldl Nat.min (Nat.min a b) := rfl
    rcases ih (Nat.min a b) with h | h
    · rw [step, h]
      have hms : Nat.min a b = min a b := rfl
      rw [hms]
      rcases Nat.le_total a b with h' | h'
      · exact Or.inl (min_eq_left h')
      · refine Or.inr ?_
        rw [min_eq_right h']
        exact List.mem_cons_self _ _
    · exact Or.inr (List.mem_cons_of_mem _ (step ▸ h))

theorem foldl_max_init_le (l : List Nat) (a : Nat) : a ≤ l.foldl Nat.max a := by
  induction l generalizing a with
  | nil => exact Nat.le_refl a
  | cons b t ih =>
    calc a ≤ Nat.max a b := Nat.le_max_left _ _
    _ ≤ t.foldl Nat.max (Nat.max a b) := ih _
    _ = (b :: t).foldl Nat.max a := rfl

theorem foldl_max_mem_le (l : List Nat) (a x : Nat) (hx : x ∈ l) :
    x ≤ l.foldl Nat.max a := by
  induction l generalizing a with
  | nil => cases hx
  | cons b t ih =>
    rcases List.mem_cons.mp hx with h | h
    · subst h
      calc x ≤ Nat.max a x := Nat.le_max_right _ _
      _ ≤ t.foldl Nat.max (Nat.max a x) := foldl_max_init_le _ _
    · exact ih _ h

theorem foldl_max_mem (l : List Nat) (a : Nat) :
    l.foldl Nat.max a = a ∨ l.foldl Nat.max a ∈ l := by
  induction l generalizing a with
  | nil => exact Or.inl rfl
  | cons b t ih =>
    have step : (b :: t).foldl Nat.max a = t.foldl Nat.max (Nat.max a b) := rfl
    rcases ih (Nat.max a b) with h | h
    · rw [step, h]
      have hms : Nat.max a b = max a b := rfl
      rw [hms]
      rcases Nat.le_total b a with h' | h'
      · exact Or.inl (max_eq_left h')
      · refine Or.inr ?_
        rw [max_eq_right h']
        exact List.mem_cons_self _ _
    · exact Or.inr (List.mem_cons_of_mem _ (step ▸ h))

/-- Membership in `maskIndices`: exactly the in-range grid cells at which
the mask holds, as `(row, column)` pairs. -/
theorem mem_maskIndices (lat lon : Grid) (latR lonR : Rat × Rat) (i j : Nat) :
    (i, j) ∈ maskIndices lat lon latR lonR ↔
      i < lat.length ∧ j < (lat.getD i []).length ∧ maskAt lat lon latR lonR i j = true := by
  unfold maskIndices
  simp only [List.mem_flatMap, List.mem_filterMap, List.mem_range]
  constructor
  · rintro ⟨i', hi', j', hj', hsome⟩
    by_cases hm : maskAt lat lon latR lonR i' j'
    · rw [if_pos hm] at hsome
      obtain ⟨rfl, rfl⟩ : i' = i ∧ j' = j := by
        have := Option.some.inj hsome
        exact ⟨congrArg Prod.fst this, congrArg Prod.snd this⟩
      exact ⟨hi', hj', hm⟩
    · rw [if_neg hm] at hsome
      cases hsome
  · rintro ⟨hi, hj, hm⟩
    exact ⟨i, hi, j, hj, by rw [if_pos hm]⟩

/-- Every matching index pair lies inside the computed bounding rectangle
(lower bounds inclusive, upper bounds exclusive). -/
theorem boundingRect_bounds (l : List (Nat × Nat)) (r : Rect)
    (hr : boundingRect l = some r) (p : Nat × Nat) (hp : p ∈ l) :
    r.yMin ≤ p.1 ∧ p.1 < r.yMax ∧ r.xMin ≤ p.2 ∧ p.2 < r.xMax := by
  match l with
  | [] => cases hr
  | q :: qs =>
    obtain rfl : r = { xMin := (qs.map Prod.snd).foldl Nat.min q.2
                       xMax := (qs.map Prod.snd).foldl Nat.max q.2 + 1
                       yMin := (qs.map Prod.fst).foldl Nat.min q.1
                       yMax := (qs.map Prod.fst).foldl Nat.max q.1 + 1 } :=
      (Option.some.inj hr).symm
    rcases List.mem_cons.mp hp with rfl | hp'
    · refine ⟨foldl_min_le_init _ _, ?_, foldl_min_le_init _ _, ?_⟩
      · exact Nat.lt_succ_of_le (foldl_max_init_le _ _)
      · exact Nat.lt_succ_of_le (foldl_max_init_le _ _)
    · have h1 : p.1 ∈ qs.map Prod.fst := List.mem_map_of_mem _ hp'
      have h2 : p.2 ∈ qs.map Prod.snd := List.mem_map_of_mem _ hp'
      refine ⟨foldl_min_le_mem _ _ _ h1, ?_, foldl_min_le_mem _ _ _ h2, ?_⟩
      · exact Nat.lt_succ_of_le (foldl_max_mem_le _ _ _ h1)
      · exact Nat.lt_succ_of_le (foldl_max_mem_le _ _ _ h2)

/-- The rectangle's four edges are attained by matching index pairs:
some match lies in the `yMin` row, some in the `yMax - 1` row, some in the
`xMin` column and some in the `xMax - 1` column. -/
theorem boundingRect_attained (l : List (Nat × Nat)) (r : Rect)
    (hr : boundingRect l = some r) :
    (∃ p ∈ l, p.1 = r.yMin) ∧ (∃ p ∈ l, p.1 = r.yMax - 1) ∧
    (∃ p ∈ l, p.2 = r.xMin) ∧ (∃ p ∈ l, p.2 = r.xMax - 1) := by
  match l with
  | [] => cases hr
  | q :: qs =>
    obtain rfl : r = { xMin := (qs.map Prod.snd).foldl Nat.min q.2
                       xMax := (qs.map Prod.snd).foldl Nat.max q.2 + 1
                       yMin := (qs.map Prod.fst).foldl Nat.min q.1
                       yMax := (qs.map Prod.fst).foldl Nat.max q.1 + 1 } :=
      (Option.some.inj hr).symm
    have attain : ∀ (f : Nat × Nat → Nat) (fold : Nat),
        (fold = q.1 ∨ fold ∈ qs.map Prod.fst) → f = Prod.fst →
        ∃ p ∈ q :: qs, f p = fold := by
      rintro f fold h rfl
      rcases h with h | h
      · exact ⟨q, List.mem_cons_self _ _, h.symm⟩
      · obtain ⟨p, hp, hfp⟩ := List.mem_map.mp h
        exact ⟨p, List.mem_cons_of_mem _ hp, hfp⟩
    have attain2 : ∀ (fold : Nat),
        (fold = q.2 ∨ fold ∈ qs.map Prod.snd) →
        ∃ p ∈ q :: qs, p.2 = fold := by
      rintro fold h
      rcases h with h | h
      · exact ⟨q, List.mem_cons_self _ _, h.symm⟩
      · obtain ⟨p, hp, hfp⟩ := List.mem_map.mp h
        exact ⟨p, List.mem_cons_of_mem _ hp, hfp⟩
    refine ⟨?_, ?_, ?_, ?_⟩
    · exact attain _ _ (foldl_min_mem _ _) rfl
    · simpa using attain _ ((qs.map Prod.fst).foldl Nat.max q.1)
        (foldl_max_mem _ _) rfl
    · exact attain2 _ (foldl_min_mem _ _)
    · simpa using attain2 ((qs.map Prod.snd).foldl Nat.max q.2)
        (foldl_max_mem _ _)



/-! ## C2 — mask-rectangle containment -/

/-- C2, counterexample: for the box `lat ∈ [2,3], lon ∈ [2,3]` — strictly
inside the span of `latC2`/`lonC2` — the Region Translator returns the
rectangle `x ∈ [1,3), y ∈ [0,3)`, whose latitude subgrid contains the
value 9, outside the requested box: the returned subgrid is *not*
contained in the box's bounding rectangle. -/
theorem c2_containment_cex :
    strictlyInsideSpan latC2 lonC2 (2, 3) (2, 3) = true ∧
    extractRegionRect latC2 lonC2 (2, 3) (2, 3) =
      .ok { xMin := 1, xMax := 3, yMin := 0, yMax := 3 } ∧
    ¬ (∀ row ∈ sliceGrid latC2 { xMin := 1, xMax := 3, yMin := 0, yMax := 3 },
        ∀ v ∈ row, 2 ≤ v ∧ v ≤ 3) := by
  refine ⟨by decide, by decide, ?_⟩
  intro h
  have := h [9, 3] (by decide) 9 (by decide)
  exact absurd this.2 (by decide)

/-- C2, amended: for every box strictly inside the grid's span for which
the Region Translator returns an index rectangle, the rectangle *covers*
every grid cell whose lat and lon both fall inside the box (it is an
enclosing rectangle of the boolean mask); the corresponding subgrid may
nevertheless contain coordinates outside the box. -/
theorem c2_mask_coverage (lat lon : Grid) (latR lonR : Rat × Rat) (r : Rect)
    (i j : Nat)
    (hspan : strictlyInsideSpan lat lon latR lonR = true)
    (hr : extractRegionRect lat lon latR lonR = .ok r)
    (hij : (i, j) ∈ maskIndices lat lon latR lonR) :
    r.yMin ≤ i ∧ i < r.yMax ∧ r.xMin ≤ j ∧ j < r.xMax := by
  unfold extractRegionRect at hr
  cases hb : boundingRect (maskIndices lat lon latR lonR) with
  | none => rw [hb] at hr; cases hr
  | some r' =>
    rw [hb] at hr
    obtain rfl : r' = r := Except.ok.inj hr
    exact boundingRect_bounds _ _ hb (i, j) hij

/-- Witness for C2 (amended) at the concrete grids `latC2`/`lonC2`,
box `[2,3] × [2,3]`, matching cell `(0, 1)`. -/
theorem c2_mask_coverage_witness :
    strictlyInsideSpan latC2 lonC2 (2, 3) (2, 3) = true ∧
    extractRegionRect latC2 lonC2 (2, 3) (2, 3) =
      .ok { xMin := 1, xMax := 3, yMin := 0, yMax := 3 } ∧
    (0, 1) ∈ maskIndices latC2 lonC2 (2, 3) (2, 3) ∧
    (Rect.yMin { xMin := 1, xMax := 3, yMin := 0, yMax := 3 } ≤ 0 ∧
     0 < Rect.yMax { xMin := 1, xMax := 3, yMin := 0, yMax := 3 } ∧
     Rect.xMin { xMin := 1, xMax := 3, yMin := 0, yMax := 3 } ≤ 1 ∧
     1 < Rect.xMax { xMin := 1, xMax := 3, yMin := 0, yMax := 3 }) :=
  ⟨by decide, by decide, by decide,
   c2_mask_coverage latC2 lonC2 (2, 3) (2, 3) _ 0 1 (by decide) (by decide) (by decide)⟩

/-! ## C3 — minimal enclosing rectangle, half-open upper bounds -/

/-- C3: when at least one grid cell's lat and lon both fall inside the
box (bounds inclusive), the Region Translator returns exactly the
minimal enclosing index rectangle of the matching cells: every matching
cell lies within it (upper bounds exclusive), its `yMin` row, `yMax - 1`
row, `xMin` column and `xMax - 1` column each contain a matching cell —
so `x_min`/`y_min` are the minima of the matching indices and
`x_max`/`y_max` the maxima plus one. -/
theorem c3_minimal_rectangle (lat lon : Grid) (latR lonR : Rat × Rat)
    (i0 j0 : Nat)
    (hi0 : i0 < lat.length) (hj0 : j0 < (lat.getD i0 []).length)
    (hm0 : maskAt lat lon latR lonR i0 j0 = true) :
    ∃ r, extractRegionRect lat lon latR lonR = .ok r ∧
      (∀ i j, (i, j) ∈ maskIndices lat lon latR lonR →
        r.yMin ≤ i ∧ i + 1 ≤ r.yMax ∧ r.xMin ≤ j ∧ j + 1 ≤ r.xMax) ∧
      (∃ j, (r.yMin, j) ∈ maskIndices lat lon latR lonR) ∧
      (∃ j, (r.yMax - 1, j) ∈ maskIndices lat lon latR lonR) ∧
      (∃ i, (i, r.xMin) ∈ maskIndices lat lon latR lonR) ∧
      (∃ i, (i, r.xMax - 1) ∈ maskIndices lat lon latR lonR) := by
  have hmem : (i0, j0) ∈ maskIndices lat lon latR lonR :=
    (mem_maskIndices lat lon latR lonR i0 j0).mpr ⟨hi0, hj0, hm0⟩
  cases hmi : maskIndices lat lon latR lonR with
  | nil => rw [hmi] at hmem; cases hmem
  | cons q qs =>
    refine ⟨{ xMin := (qs.map Prod.snd).foldl Nat.min q.2
              xMax := (qs.map Prod.snd).foldl Nat.max q.2 + 1
              yMin := (qs.map Prod.fst).foldl Nat.min q.1
              yMax := (qs.map Prod.fst).foldl Nat.max q.1 + 1 }, ?_, ?_, ?_, ?_, ?_, ?_⟩
    · unfold extractRegionRect
      rw [hmi]
      rfl
    · intro i j hij
      have := boundingRect_bounds (q :: qs) _ rfl (i, j) (hmi ▸ hij)
      exact ⟨this.1, this.2.1, this.2.2.1, this.2.2.2⟩
    · obtain ⟨p, hp, hpe⟩ := (boundingRect_attained (q :: qs) _ rfl).1
      exact ⟨p.2, by rw [← hpe]; simpa using hp⟩
    · obtain ⟨p, hp, hpe⟩ := (boundingRect_attained (q :: qs) _ rfl).2.1
      exact ⟨p.2, by rw [← hpe]; simpa using hp⟩
    · obtain ⟨p, hp, hpe⟩ := (boundingRect_attained (q :: qs) _ rfl).2.2.1
      exact ⟨p.1, by rw [← hpe]; simpa using hp⟩
    · obtain ⟨p, hp, hpe⟩ := (boundingRect_attained (q :: qs) _ rfl).2.2.2
      exact ⟨p.1, by rw [← hpe]; simpa using hp⟩

end LLC

namespace LLC

/-! ## C4 — empty region fails with the empty-region ValueError -/

/-- C4: when no grid cell's lat and lon both fall inside the box, the
Region Translator raises the empty-region `ValueError` — it never
returns an index rectangle (degenerate or otherwise). -/
theorem c4_empty_region_error (lat lon : Grid) (latR lonR : Rat × Rat)
    (h : ∀ i < lat.length, ∀ j < (lat.getD i []).length,
      maskAt lat lon latR lonR i j = false) :
    extractRegionRect lat lon latR lonR =
      .error (.valueError "No data found in the given lat/lon range.") := by
  have hempty : maskIndices lat lon latR lonR = [] := by
    rw [List.eq_nil_iff_forall_not_mem]
    rintro ⟨i, j⟩ hmem
    have hm := (mem_maskIndices lat lon latR lonR i j).mp hmem
    rw [h i hm.1 j hm.2.1] at hm
    exact Bool.false_ne_true hm.2.2
  unfold extractRegionRect
  rw [hempty]
  rfl

/-- Witness for C4: the box `[1,2] × [1,2]` misses the 1×1 grid at the
origin, and the translator returns the empty-region error. -/
theorem c4_empty_region_error_witness :
    (∀ i < latPoint.length, ∀ j < (latPoint.getD i []).length,
      maskAt latPoint lonPoint (1, 2) (1, 2) i j = false) ∧
    extractRegionRect latPoint lonPoint (1, 2) (1, 2) =
      .error (.valueError "No data found in the given lat/lon range.") :=
  ⟨by decide, c4_empty_region_error latPoint lonPoint (1, 2) (1, 2) (by decide)⟩

/-! ## C1 — the get-coordinates operation does not exist on DataService -/

/-- C1 (code bug): `/api/coordinates` never returns the coordinate grid.
`class DataService` defines no `get_coordinates` method, so the call
`data_service.get_coordinates(...)` in app.py line 196 raises
`AttributeError`, which the generic `except Exception` handler turns
into an HTTP 500 — both for a request with no ranges and for one with a
full, well-formed lat and lon range pair. -/
theorem c1_get_coordinates_missing :
    ("get_coordinates" ∈ dataServiceMethods) = False ∧
    coordinatesHandler [] =
      (500, Sum.inr "'DataService' object has no attribute 'get_coordinates'") ∧
    coordinatesHandler
        [("lat_min", "-40"), ("lat_max", "-10"), ("lon_min", "105"), ("lon_max", "160")] =
      (500, Sum.inr "'DataService' object has no attribute 'get_coordinates'") := by
  refine ⟨by simp [dataServiceMethods], by rfl, by rfl⟩

end LLC

namespace LLC

/-! ## C8 — a failed timestep aborts the whole batch, nothing is written -/

/-- If any timestep in `[0, n)` fails to read, the sequential load loop
propagates the failure. -/
theorem loadLoop_error (readT : Nat → Except PyError NDArray) (n t : Nat)
    (e : PyError) (ht : t < n) (hfail : readT t = .error e) :
    ∃ e', loadLoop readT n = .error e' := by
  induction n with
  | zero => omega
  | succ m ih =>
    unfold loadLoop
    cases hl : loadLoop readT m with
    | error e' => exact ⟨e', rfl⟩
    | ok acc =>
      by_cases hm : t < m
      · obtain ⟨e', he'⟩ := ih hm
        rw [hl] at he'
        cases he'
      · have : t = m := by omega
        subst this
        rw [hfail]
        exact ⟨e, rfl⟩

/-- C8: if the read of any timestep in `[0, n)` fails, the batch loader
aborts with no partial result — no output file is written and the
process exits 1, because `save_data` runs only after every timestep of
the loop has loaded successfully. -/
theorem c8_batch_abort (latlonFileExists : Bool)
    (readT : Nat → Except PyError NDArray) (n t : Nat) (e : PyError)
    (ht : t < n) (hfail : readT t = .error e) :
    batchMain latlonFileExists readT n = ([], 1) := by
  unfold batchMain load_salinity_data
  cases latlonFileExists with
  | false => rfl
  | true =>
    simp only [Bool.true_eq_false, if_false]
    cases h0 : readT 0 with
    | error e0 => rfl
    | ok d0 =>
      obtain ⟨e', he'⟩ := loadLoop_error readT n t e ht hfail
      rw [he']

/-- Witness for C8: a read source failing at timestep 1 of 3 yields no
output files and exit code 1. -/
theorem c8_batch_abort_witness :
    ((fun t => if t = 1 then Except.error (PyError.runtimeError "Failed to read data at timestep 1: boom")
               else Except.ok { shape := [1, 1, 1, 1], data := [0] }) 1 : Except PyError NDArray) =
      .error (.runtimeError "Failed to read data at timestep 1: boom") ∧
    (1 : Nat) < 3 ∧
    batchMain true
      (fun t => if t = 1 then Except.error (PyError.runtimeError "Failed to read data at timestep 1: boom")
                else Except.ok { shape := [1, 1, 1, 1], data := [0] }) 3 = ([], 1) :=
  ⟨by decide, by decide,
   c8_batch_abort true _ 3 1 (PyError.runtimeError "Failed to read data at timestep 1: boom")
     (by decide) (by decide)⟩

/-! ## C10 — any format other than "base64" silently means "array" -/

/-- C10: `format_type` is never validated: for every value other than
exactly `"base64"` (e.g. `"Base64"`, `"json"`), the serialization block
falls through to the `"array"` branch, and `get_data_slice` /
`get_timestep_data` behave exactly as if `format_type = "array"` —
no error is raised for unknown formats. -/
theorem c10_format_fallthrough (fmt : String) (a : NDArray)
    (read : String → ReadCall → Except String NDArray) (latc lonc : Grid)
    (f : String) (t d : Int) (latR lonR : Rat × Rat) (zr : Int × Int) (q : Int)
    (hfmt : fmt ≠ "base64") :
    serializeData fmt a = .arrayFmt (tolist a.shape a.data) ∧
    get_data_slice read latc lonc f t d latR lonR q fmt =
      get_data_slice read latc lonc f t d latR lonR q "array" ∧
    get_timestep_data read latc lonc f t latR lonR zr q fmt =
      get_timestep_data read latc lonc f t latR lonR zr q "array" := by
  have hser : ∀ b : NDArray, serializeData fmt b = .arrayFmt (tolist b.shape b.data) := by
    intro b
    unfold serializeData
    rw [if_neg hfmt]
  have harr : ∀ b : NDArray, serializeData "array" b = .arrayFmt (tolist b.shape b.data) := by
    intro b
    unfold serializeData
    rw [if_neg (by decide)]
  refine ⟨hser a, ?_, ?_⟩
  · unfold get_data_slice
    cases fieldURL f with
    | none => rfl
    | some url =>
      simp only
      cases extract_data_by_latlon_range (read url) latc lonc latR lonR (d, d + 1) q t with
      | error e => rfl
      | ok v =>
        simp only [hser, harr]
  · unfold get_timestep_data
    cases fieldURL f with
    | none => rfl
    | some url =>
      simp only
      cases extract_data_by_latlon_range (read url) latc lonc latR lonR zr q t with
      | error e => rfl
      | ok v =>
        simp only [hser, harr]

end LLC

namespace LLC

/-- Witness for C10 at `format_type = "Base64"` (wrong casing): the
serializer and both endpoints behave as for `"array"`. -/
theorem c10_format_fallthrough_witness :
    ("Base64" : String) ≠ "base64" ∧
    (serializeData "Base64" ndEx = .arrayFmt (tolist ndEx.shape ndEx.data) ∧
     get_data_slice testRead latC2 lonC2 "salt" 0 0 (2, 3) (2, 3) (-12) "Base64" =
       get_data_slice testRead latC2 lonC2 "salt" 0 0 (2, 3) (2, 3) (-12) "array" ∧
     get_timestep_data testRead latC2 lonC2 "salt" 0 (2, 3) (2, 3) (0, 1) (-12) "Base64" =
       get_timestep_data testRead latC2 lonC2 "salt" 0 (2, 3) (2, 3) (0, 1) (-12) "array") :=
  ⟨by decide,
   c10_format_fallthrough "Base64" ndEx testRead latC2 lonC2 "salt" 0 0 (2, 3) (2, 3)
     (0, 1) (-12) (by decide)⟩

end LLC

namespace LLC

/-! ## C7 — field aliases and case-insensitivity -/

/-- C7: field names are lowercased before the `FIELD_URLS` lookup, so any
two casings of the same name resolve to the same URL; `"salt"` and
`"salinity"` alias the same remote dataset URL, and for identical
parameters `get_data_slice` / `get_timestep_data` on the two names return
identical data, coordinates and shape (the responses differ only in the
echoed `field` string). -/
theorem c7_field_alias (read : String → ReadCall → Except String NDArray)
    (latc lonc : Grid) (t d : Int) (latR lonR : Rat × Rat) (zr : Int × Int)
    (q : Int) (fmt : String) (f g : String)
    (hfg : pyLower f = pyLower g) :
    fieldURL f = fieldURL g ∧
    fieldURL "salt" = some saltURL ∧
    fieldURL "salinity" = some saltURL ∧
    (get_data_slice read latc lonc "salt" t d latR lonR q fmt).map SliceResponse.dataPart =
      (get_data_slice read latc lonc "salinity" t d latR lonR q fmt).map SliceResponse.dataPart ∧
    (get_timestep_data read latc lonc "salt" t latR lonR zr q fmt).map TimestepResponse.dataPart =
      (get_timestep_data read latc lonc "salinity" t latR lonR zr q fmt).map TimestepResponse.dataPart := by
  have hsalt : fieldURL "salt" = some saltURL := by rfl
  have hsalinity : fieldURL "salinity" = some saltURL := by rfl
  refine ⟨by unfold fieldURL; rw [hfg], hsalt, hsalinity, ?_, ?_⟩
  · cases hx : extract_data_by_latlon_range (read saltURL) latc lonc latR lonR (d, d + 1) q t with
    | error e => simp [get_data_slice, hsalt, hsalinity, hx]
    | ok v =>
      obtain ⟨data, glat, glon⟩ := v
      simp only [get_data_slice, hsalt, hsalinity, hx]
      rfl
  · cases hx : extract_data_by_latlon_range (read saltURL) latc lonc latR lonR zr q t with
    | error e => simp [get_timestep_data, hsalt, hsalinity, hx]
    | ok v =>
      obtain ⟨data, glat, glon⟩ := v
      simp only [get_timestep_data, hsalt, hsalinity, hx]
      rfl

end LLC

namespace LLC

/-- Witness for C7: `"SALT"` and `"salt"` lower to the same key, and the
salt/salinity responses agree on their data parts for a concrete read. -/
theorem c7_field_alias_witness :
    pyLower "SALT" = pyLower "salt" ∧
    (fieldURL "SALT" = fieldURL "salt" ∧
     fieldURL "salt" = some saltURL ∧
     fieldURL "salinity" = some saltURL ∧
     (get_data_slice testRead latC2 lonC2 "salt" 0 0 (2, 3) (2, 3) (-12) "array").map SliceResponse.dataPart =
       (get_data_slice testRead latC2 lonC2 "salinity" 0 0 (2, 3) (2, 3) (-12) "array").map SliceResponse.dataPart ∧
     (get_timestep_data testRead latC2 lonC2 "salt" 0 (2, 3) (2, 3) (0, 1) (-12) "array").map TimestepResponse.dataPart =
       (get_timestep_data testRead latC2 lonC2 "salinity" 0 (2, 3) (2, 3) (0, 1) (-12) "array").map TimestepResponse.dataPart) :=
  ⟨by decide,
   c7_field_alias testRead latC2 lonC2 0 0 (2, 3) (2, 3) (0, 1) (-12) "array"
     "SALT" "salt" (by decide)⟩

end LLC

namespace LLC

/-! ## C5 — get_data_slice vs get_timestep_data on one depth level -/

/-- C5: with the slice's depth range derived as `[d, d+1)` and the
timestep query given `z_range = (d, d+1)`, both operations make the very
same underlying read call; on a 4-axis result with singleton time and
depth axes, the slice response carries the flat values with 2D shape
`[h, w]` (both singleton axes dropped) and the timestep response carries
the *same* flat values with 3D shape `[1, h, w]` (only the time axis
dropped) — numerically identical data, differing only in shape. -/
theorem c5_slice_timestep_agreement
    (read : String → ReadCall → Except String NDArray) (latc lonc : Grid)
    (field url : String) (t d : Int) (latR lonR : Rat × Rat) (q : Int)
    (fmt : String) (rect : Rect) (a : NDArray) (h w : Nat)
    (hurl : fieldURL field = some url)
    (hrect : boundingRect (maskIndices latc lonc latR lonR) = some rect)
    (hread : read url { time := t, x := (rect.xMin, rect.xMax), y := (rect.yMin, rect.yMax), z := (d, d + 1), quality := q } = .ok a)
    (hshape : a.shape = [1, 1, h, w]) :
    get_data_slice read latc lonc field t d latR lonR q fmt =
      .ok { field := field, timestep := t, depth_level := d,
            dataOut := serializeData fmt { shape := [h, w], data := a.data.take (h * w) },
            latitude := sliceGrid latc rect, longitude := sliceGrid lonc rect,
            shape := [h, w], lat_range := latR, lon_range := lonR, quality := q } ∧
    get_timestep_data read latc lonc field t latR lonR (d, d + 1) q fmt =
      .ok { field := field, timestep := t,
            dataOut := serializeData fmt { shape := [1, h, w], data := a.data.take (h * w) },
            latitude := sliceGrid latc rect, longitude := sliceGrid lonc rect,
            shape := [1, h, w], lat_range := latR, lon_range := lonR,
            z_range := (d, d + 1), quality := q } := by
  have hfirst : a.first = { shape := [1, h, w], data := a.data.take (h * w) } := by
    unfold NDArray.first
    rw [hshape]
    simp
  have hff : a.first.first = { shape := [h, w], data := a.data.take (h * w) } := by
    rw [hfirst]
    unfold NDArray.first
    simp [List.take_take]
  have hx : extract_data_by_latlon_range (read url) latc lonc latR lonR (d, d + 1) q t =
      .ok (a, sliceGrid latc rect, sliceGrid lonc rect) := by
    unfold extract_data_by_latlon_range
    simp only [hrect, hread]
  constructor
  · simp only [get_data_slice, hurl, hx]
    simp [hshape, hff]
  · simp only [get_timestep_data, hurl, hx]
    simp [hshape, hfirst]

/-- Witness for C5 with the concrete grids, box `[2,3] × [2,3]`
(rectangle `x ∈ [1,3), y ∈ [0,3)`) and the fixed `(1,1,1,2)` read. -/
theorem c5_slice_timestep_agreement_witness :
    fieldURL "salinity" = some saltURL ∧
    boundingRect (maskIndices latC2 lonC2 (2, 3) (2, 3)) =
      some { xMin := 1, xMax := 3, yMin := 0, yMax := 3 } ∧
    testRead saltURL { time := 0, x := (1, 3), y := (0, 3), z := (0, 0 + 1), quality := -12 } =
      .ok { shape := [1, 1, 1, 2], data := [1065353216, 0] } ∧
    NDArray.shape { shape := [1, 1, 1, 2], data := [1065353216, 0] } = [1, 1, 1, 2] ∧
    (get_data_slice testRead latC2 lonC2 "salinity" 0 0 (2, 3) (2, 3) (-12) "array" =
      .ok { field := "salinity", timestep := 0, depth_level := 0,
            dataOut := serializeData "array"
              { shape := [1, 2],
                data := List.take (1 * 2) (NDArray.data { shape := [1, 1, 1, 2], data := [1065353216, 0] }) },
            latitude := sliceGrid latC2 { xMin := 1, xMax := 3, yMin := 0, yMax := 3 },
            longitude := sliceGrid lonC2 { xMin := 1, xMax := 3, yMin := 0, yMax := 3 },
            shape := [1, 2], lat_range := (2, 3), lon_range := (2, 3), quality := -12 } ∧
     get_timestep_data testRead latC2 lonC2 "salinity" 0 (2, 3) (2, 3) (0, 0 + 1) (-12) "array" =
      .ok { field := "salinity", timestep := 0,
            dataOut := serializeData "array"
              { shape := [1, 1, 2],
                data := List.take (1 * 2) (NDArray.data { shape := [1, 1, 1, 2], data := [1065353216, 0] }) },
            latitude := sliceGrid latC2 { xMin := 1, xMax := 3, yMin := 0, yMax := 3 },
            longitude := sliceGrid lonC2 { xMin := 1, xMax := 3, yMin := 0, yMax := 3 },
            shape := [1, 1, 2], lat_range := (2, 3), lon_range := (2, 3),
            z_range := (0, 0 + 1), quality := -12 }) :=
  ⟨by decide, by decide, by rfl, by rfl,
   c5_slice_timestep_agreement testRead latC2 lonC2 "salinity" saltURL 0 0 (2, 3) (2, 3)
     (-12) "array" { xMin := 1, xMax := 3, yMin := 0, yMax := 3 }
     { shape := [1, 1, 1, 2], data := [1065353216, 0] } 1 2
     (by decide) (by decide) (by rfl) (by rfl)⟩

end LLC

namespace LLC

/-! ## C6 — base64 round trip -/

/-- The base64 alphabet decodes back to the sextet it encodes. -/
theorem table_roundtrip : ∀ s < 64, charSextet (sextetChar s) = s := by decide

/-- No alphabet character is the padding character `'='` (61). -/
theorem sextetChar_ne_pad : ∀ s < 64, sextetChar s ≠ 61 := by decide

/-- Decoding inverts encoding on byte lists (entries `< 256`). -/
theorem b64decode_encode (n : Nat) : ∀ bs : List Nat, bs.length ≤ n →
    (∀ b ∈ bs, b < 256) → b64decode (b64encode bs) = bs := by
  induction n with
  | zero =>
    intro bs hlen _
    have hnil : bs = [] := List.eq_nil_of_length_eq_zero (Nat.le_zero.mp hlen)
    subst hnil
    rfl
  | succ m ih =>
    intro bs hlen hb
    match bs with
    | [] => rfl
    | [a] =>
      have ha : a < 256 := hb a (by simp)
      have h1 : charSextet (sextetChar (a / 4)) = a / 4 := table_roundtrip _ (by omega)
      have h2 : charSextet (sextetChar (a % 4 * 16)) = a % 4 * 16 :=
        table_roundtrip _ (by omega)
      show b64decode [sextetChar (a / 4), sextetChar (a % 4 * 16), 61, 61] = [a]
      have hd : b64decode [sextetChar (a / 4), sextetChar (a % 4 * 16), 61, 61] =
          [charSextet (sextetChar (a / 4)) * 4 +
           charSextet (sextetChar (a % 4 * 16)) / 16] := rfl
      rw [hd, h1, h2]
      simp only [List.cons.injEq, and_true]
      omega
    | [a, b] =>
      have ha : a < 256 := hb a (by simp)
      have hbb : b < 256 := hb b (by simp)
      have h1 : charSextet (sextetChar (a / 4)) = a / 4 := table_roundtrip _ (by omega)
      have h2 : charSextet (sextetChar (a % 4 * 16 + b / 16)) = a % 4 * 16 + b / 16 :=
        table_roundtrip _ (by omega)
      have h3 : charSextet (sextetChar (b % 16 * 4)) = b % 16 * 4 :=
        table_roundtrip _ (by omega)
      have hne3 : sextetChar (b % 16 * 4) ≠ 61 := sextetChar_ne_pad _ (by omega)
      show b64decode [sextetChar (a / 4), sextetChar (a % 4 * 16 + b / 16),
        sextetChar (b % 16 * 4), 61] = [a, b]
      simp only [b64decode]
      rw [if_neg hne3]
      simp only [if_true]
      rw [h1, h2, h3]
      simp only [List.cons.injEq, and_true]
      omega
    | a :: b :: c :: rest =>
      have ha : a < 256 := hb a (by simp)
      have hbb : b < 256 := hb b (by simp)
      have hc : c < 256 := hb c (by simp)
      have h1 : charSextet (sextetChar (a / 4)) = a / 4 := table_roundtrip _ (by omega)
      have h2 : charSextet (sextetChar (a % 4 * 16 + b / 16)) = a % 4 * 16 + b / 16 :=
        table_roundtrip _ (by omega)
      have h3 : charSextet (sextetChar (b % 16 * 4 + c / 64)) = b % 16 * 4 + c / 64 :=
        table_roundtrip _ (by omega)
      have h4 : charSextet (sextetChar (c % 64)) = c % 64 := table_roundtrip _ (by omega)
      have hne3 : sextetChar (b % 16 * 4 + c / 64) ≠ 61 := sextetChar_ne_pad _ (by omega)
      have hne4 : sextetChar (c % 64) ≠ 61 := sextetChar_ne_pad _ (by omega)
      have hrest : b64decode (b64encode rest) = rest := by
        apply ih
        · simp only [List.length_cons] at hlen
          omega
        · intro x hx
          exact hb x (by simp [hx])
      show b64decode (sextetChar (a / 4) :: sextetChar (a % 4 * 16 + b / 16) ::
        sextetChar (b % 16 * 4 + c / 64) :: sextetChar (c % 64) :: b64encode rest) =
        a :: b :: c :: rest
      simp only [b64decode]
      rw [if_neg hne3, if_neg hne4, h1, h2, h3, h4, hrest]
      simp only [List.cons.injEq, and_true]
      omega

/-- Every byte produced by `arrToBytes` is below 256. -/
theorem arrToBytes_lt (vs : List Nat) : ∀ b ∈ arrToBytes vs, b < 256 := by
  intro b hb
  unfold arrToBytes at hb
  obtain ⟨v, hv, hbv⟩ := List.mem_flatMap.mp hb
  unfold f32ToBytes at hbv
  simp only [List.mem_cons, List.not_mem_nil, or_false] at hbv
  rcases hbv with rfl | rfl | rfl | rfl <;> omega

/-- Regrouping the little-endian bytes recovers the float32 patterns. -/
theorem bytesToF32s_arrToBytes (vs : List Nat) (h : ∀ v ∈ vs, v < 4294967296) :
    bytesToF32s (arrToBytes vs) = vs := by
  induction vs with
  | nil => rfl
  | cons v t ih =>
    have hv : v < 4294967296 := h v (by simp)
    have harr : arrToBytes (v :: t) = (v % 256) :: (v / 256 % 256) ::
        (v / 65536 % 256) :: (v / 16777216 % 256) :: arrToBytes t := by
      simp [arrToBytes, f32ToBytes]
    rw [harr]
    simp only [bytesToF32s]
    rw [ih (fun x hx => h x (by simp [hx]))]
    simp only [List.cons.injEq, and_true]
    omega

/-- C6: the `"base64"` payload carries `format: "base64"`,
`dtype: "float32"` and the array's shape; base64-decoding its `data`
field back to float32 values and reshaping by the declared shape
reproduces exactly the nested-list value the `"array"` format would have
produced for the same extracted array. -/
theorem c6_base64_roundtrip (a : NDArray) (h32 : ∀ v ∈ a.data, v < 4294967296) :
    serializeData "base64" a =
      .base64Fmt "float32" a.shape (b64encode (arrToBytes a.data)) ∧
    bytesToF32s (b64decode (b64encode (arrToBytes a.data))) = a.data ∧
    tolist a.shape (bytesToF32s (b64decode (b64encode (arrToBytes a.data)))) =
      tolist a.shape a.data ∧
    serializeData "array" a = .arrayFmt (tolist a.shape a.data) := by
  have hrt : bytesToF32s (b64decode (b64encode (arrToBytes a.data))) = a.data := by
    rw [b64decode_encode (arrToBytes a.data).length _ (Nat.le_refl _) (arrToBytes_lt _)]
    exact bytesToF32s_arrToBytes _ h32
  exact ⟨rfl, hrt, by rw [hrt], rfl⟩

/-- Witness for C6 on the concrete 2×2 array `ndEx`. -/
theorem c6_base64_roundtrip_witness :
    (∀ v ∈ ndEx.data, v < 4294967296) ∧
    (serializeData "base64" ndEx =
       .base64Fmt "float32" ndEx.shape (b64encode (arrToBytes ndEx.data)) ∧
     bytesToF32s (b64decode (b64encode (arrToBytes ndEx.data))) = ndEx.data ∧
     tolist ndEx.shape (bytesToF32s (b64decode (b64encode (arrToBytes ndEx.data)))) =
       tolist ndEx.shape ndEx.data ∧
     serializeData "array" ndEx = .arrayFmt (tolist ndEx.shape ndEx.data)) :=
  ⟨by decide, c6_base64_roundtrip ndEx (by decide)⟩

end LLC

namespace LLC

/-! ## C9 — parameter errors and status codes -/

/-- `Except.error e >>= f` short-circuits. -/
theorem error_bind {α β : Type} (e : PyError) (f : α → Except PyError β) :
    ((Except.error e : Except PyError α) >>= f) = Except.error e := rfl

/-- `Except.ok a >>= f` continues with `f a`. -/
theorem ok_bind {α β : Type} (a : α) (f : α → Except PyError β) :
    ((Except.ok a : Except PyError α) >>= f) = f a := rfl

/-- `pyIntArg` only raises `ValueError` (caught by the 400 branch). -/
theorem pyIntArg_error_vt (v : Option String) (d : Int) (e : PyError)
    (h : pyIntArg v d = .error e) : e.isValueOrType = true := by
  unfold pyIntArg at h
  split at h
  · exact Except.noConfusion h
  · split at h
    · exact Except.noConfusion h
    · cases h
      rfl

/-- `pyFloatArg` only raises `ValueError` or `TypeError`. -/
theorem pyFloatArg_error_vt (v : Option String) (e : PyError)
    (h : pyFloatArg v = .error e) : e.isValueOrType = true := by
  unfold pyFloatArg at h
  split at h
  · cases h
    rfl
  · split at h
    · exact Except.noConfusion h
    · cases h
      rfl

/-- A successful `pyIntArg` means the parameter was absent (default used)
or present and int-parseable. -/
theorem pyIntArg_ok_inv (v : Option String) (d n : Int)
    (h : pyIntArg v d = .ok n) :
    v = none ∨ ∃ s, v = some s ∧ parseIntLit s = some n := by
  unfold pyIntArg at h
  split at h
  · exact Or.inl rfl
  · rename_i s
    split at h
    · rename_i m heq
      cases h
      exact Or.inr ⟨s, rfl, heq⟩
    · exact Except.noConfusion h

/-- A successful `pyFloatArg` means the parameter was present and
float-parseable. -/
theorem pyFloatArg_ok_inv (v : Option String) (q : Rat)
    (h : pyFloatArg v = .ok q) :
    ∃ s, v = some s ∧ parseFloatLit s = some q := by
  unfold pyFloatArg at h
  split at h
  · exact Except.noConfusion h
  · rename_i s
    split at h
    · rename_i r heq
      cases h
      exact ⟨s, rfl, heq⟩
    · exact Except.noConfusion h

end LLC

namespace LLC

/-- Classification of `/api/data/slice` parameter parsing: it either
fails with a `ValueError`/`TypeError` (the handler's 400 branch) or
succeeds, in which case every parameter was well-formed. -/
theorem parseSliceArgs_spec (args : List (String × String)) :
    (∃ e, parseSliceArgs args = .error e ∧ e.isValueOrType = true) ∨
    (∃ p, parseSliceArgs args = .ok p ∧ sliceParamsGood args) := by
  unfold parseSliceArgs
  cases h1 : pyIntArg (getArg args "timestep") 0 with
  | error e =>
    refine Or.inl ⟨e, ?_, pyIntArg_error_vt _ _ _ h1⟩
    simp only [h1, error_bind]
  | ok n1 =>
    simp only [h1, ok_bind]
    cases h2 : pyIntArg (getArg args "depth_level") 0 with
    | error e =>
      refine Or.inl ⟨e, ?_, pyIntArg_error_vt _ _ _ h2⟩
      simp only [h2, error_bind]
    | ok n2 =>
      simp only [h2, ok_bind]
      cases h3 : pyIntArg (getArg args "quality") (-12) with
      | error e =>
        refine Or.inl ⟨e, ?_, pyIntArg_error_vt _ _ _ h3⟩
        simp only [h3, error_bind]
      | ok n3 =>
        simp only [h3, ok_bind]
        cases h4 : pyFloatArg (getArg args "lat_min") with
        | error e =>
          refine Or.inl ⟨e, ?_, pyFloatArg_error_vt _ _ h4⟩
          simp only [h4, error_bind]
        | ok q4 =>
          simp only [h4, ok_bind]
          cases h5 : pyFloatArg (getArg args "lat_max") with
          | error e =>
            refine Or.inl ⟨e, ?_, pyFloatArg_error_vt _ _ h5⟩
            simp only [h5, error_bind]
          | ok q5 =>
            simp only [h5, ok_bind]
            cases h6 : pyFloatArg (getArg args "lon_min") with
            | error e =>
              refine Or.inl ⟨e, ?_, pyFloatArg_error_vt _ _ h6⟩
              simp only [h6, error_bind]
            | ok q6 =>
              simp only [h6, ok_bind]
              cases h7 : pyFloatArg (getArg args "lon_max") with
              | error e =>
                refine Or.inl ⟨e, ?_, pyFloatArg_error_vt _ _ h7⟩
                simp only [h7, error_bind]
              | ok q7 =>
                simp only [h7, ok_bind]
                refine Or.inr ⟨_, rfl, ?_, ?_⟩
                · intro k hk
                  simp only [List.mem_cons, List.not_mem_nil, or_false] at hk
                  rcases hk with rfl | rfl | rfl | rfl
                  · obtain ⟨s, hs, hp⟩ := pyFloatArg_ok_inv _ _ h4
                    exact ⟨s, _, hs, hp⟩
                  · obtain ⟨s, hs, hp⟩ := pyFloatArg_ok_inv _ _ h5
                    exact ⟨s, _, hs, hp⟩
                  · obtain ⟨s, hs, hp⟩ := pyFloatArg_ok_inv _ _ h6
                    exact ⟨s, _, hs, hp⟩
                  · obtain ⟨s, hs, hp⟩ := pyFloatArg_ok_inv _ _ h7
                    exact ⟨s, _, hs, hp⟩
                · intro k hk
                  simp only [List.mem_cons, List.not_mem_nil, or_false] at hk
                  rcases hk with rfl | rfl | rfl
                  · rcases pyIntArg_ok_inv _ _ _ h1 with hnone | ⟨s, hs, hp⟩
                    · exact Or.inl hnone
                    · exact Or.inr ⟨s, _, hs, hp⟩
                  · rcases pyIntArg_ok_inv _ _ _ h2 with hnone | ⟨s, hs, hp⟩
                    · exact Or.inl hnone
                    · exact Or.inr ⟨s, _, hs, hp⟩
                  · rcases pyIntArg_ok_inv _ _ _ h3 with hnone | ⟨s, hs, hp⟩
                    · exact Or.inl hnone
                    · exact Or.inr ⟨s, _, hs, hp⟩

end LLC

namespace LLC

/-- Classification of `/api/data/timestep` parameter parsing. -/
theorem parseTimestepArgs_spec (args : List (String × String)) :
    (∃ e, parseTimestepArgs args = .error e ∧ e.isValueOrType = true) ∨
    (∃ p, parseTimestepArgs args = .ok p ∧ timestepParamsGood args) := by
  unfold parseTimestepArgs
  cases h1 : pyIntArg (getArg args "timestep") 0 with
  | error e =>
    refine Or.inl ⟨e, ?_, pyIntArg_error_vt _ _ _ h1⟩
    simp only [h1, error_bind]
  | ok n1 =>
    simp only [h1, ok_bind]
    cases h2 : pyIntArg (getArg args "z_min") 0 with
    | error e =>
      refine Or.inl ⟨e, ?_, pyIntArg_error_vt _ _ _ h2⟩
      simp only [h2, error_bind]
    | ok n2 =>
      simp only [h2, ok_bind]
      cases h3 : pyIntArg (getArg args "z_max") 1 with
      | error e =>
        refine Or.inl ⟨e, ?_, pyIntArg_error_vt _ _ _ h3⟩
        simp only [h3, error_bind]
      | ok n3 =>
        simp only [h3, ok_bind]
        cases h4 : pyIntArg (getArg args "quality") (-12) with
        | error e =>
          refine Or.inl ⟨e, ?_, pyIntArg_error_vt _ _ _ h4⟩
          simp only [h4, error_bind]
        | ok n4 =>
          simp only [h4, ok_bind]
          cases h5 : pyFloatArg (getArg args "lat_min") with
          | error e =>
            refine Or.inl ⟨e, ?_, pyFloatArg_error_vt _ _ h5⟩
            simp only [h5, error_bind]
          | ok q5 =>
            simp only [h5, ok_bind]
            cases h6 : pyFloatArg (getArg args "lat_max") with
            | error e =>
              refine Or.inl ⟨e, ?_, pyFloatArg_error_vt _ _ h6⟩
              simp only [h6, error_bind]
            | ok q6 =>
              simp only [h6, ok_bind]
              cases h7 : pyFloatArg (getArg args "lon_min") with
              | error e =>
                refine Or.inl ⟨e, ?_, pyFloatArg_error_vt _ _ h7⟩
                simp only [h7, error_bind]
              | ok q7 =>
                simp only [h7, ok_bind]
                cases h8 : pyFloatArg (getArg args "lon_max") with
                | error e =>
                  refine Or.inl ⟨e, ?_, pyFloatArg_error_vt _ _ h8⟩
                  simp only [h8, error_bind]
                | ok q8 =>
                  simp only [h8, ok_bind]
                  refine Or.inr ⟨_, rfl, ?_, ?_⟩
                  · intro k hk
                    simp only [List.mem_cons, List.not_mem_nil, or_false] at hk
                    rcases hk with rfl | rfl | rfl | rfl
                    · obtain ⟨s, hs, hp⟩ := pyFloatArg_ok_inv _ _ h5
                      exact ⟨s, _, hs, hp⟩
                    · obtain ⟨s, hs, hp⟩ := pyFloatArg_ok_inv _ _ h6
                      exact ⟨s, _, hs, hp⟩
                    · obtain ⟨s, hs, hp⟩ := pyFloatArg_ok_inv _ _ h7
                      exact ⟨s, _, hs, hp⟩
                    · obtain ⟨s, hs, hp⟩ := pyFloatArg_ok_inv _ _ h8
                      exact ⟨s, _, hs, hp⟩
                  · intro k hk
                    simp only [List.mem_cons, List.not_mem_nil, or_false] at hk
                    rcases hk with rfl | rfl | rfl | rfl
                    · rcases pyIntArg_ok_inv _ _ _ h1 with hnone | ⟨s, hs, hp⟩
                      · exact Or.inl hnone
                      · exact Or.inr ⟨s, _, hs, hp⟩
                    · rcases pyIntArg_ok_inv _ _ _ h2 with hnone | ⟨s, hs, hp⟩
                      · exact Or.inl hnone
                      · exact Or.inr ⟨s, _, hs, hp⟩
                    · rcases pyIntArg_ok_inv _ _ _ h3 with hnone | ⟨s, hs, hp⟩
                      · exact Or.inl hnone
                      · exact Or.inr ⟨s, _, hs, hp⟩
                    · rcases pyIntArg_ok_inv _ _ _ h4 with hnone | ⟨s, hs, hp⟩
                      · exact Or.inl hnone
                      · exact Or.inr ⟨s, _, hs, hp⟩

/-- Well-formed parameters contradict the 400 condition (slice route). -/
theorem slice_not_bad_of_good (args : List (String × String))
    (hg : sliceParamsGood args) (hb : sliceParamBad args) : False := by
  rcases hb with ⟨k, hk, hbad⟩ | ⟨k, hk, v, hv, hpv⟩
  · obtain ⟨s, q, hs, hp⟩ := hg.1 k hk
    rcases hbad with hnone | ⟨v, hv, hpv⟩
    · rw [hs] at hnone
      cases hnone
    · rw [hs] at hv
      cases hv
      rw [hp] at hpv
      cases hpv
  · rcases hg.2 k hk with hnone | ⟨s, n, hs, hp⟩
    · rw [hv] at hnone
      cases hnone
    · rw [hs] at hv
      cases hv
      rw [hp] at hpv
      cases hpv

/-- Well-formed parameters contradict the 400 condition (timestep route). -/
theorem timestep_not_bad_of_good (args : List (String × String))
    (hg : timestepParamsGood args) (hb : timestepParamBad args) : False := by
  rcases hb with ⟨k, hk, hbad⟩ | ⟨k, hk, v, hv, hpv⟩
  · obtain ⟨s, q, hs, hp⟩ := hg.1 k hk
    rcases hbad with hnone | ⟨v, hv, hpv⟩
    · rw [hs] at hnone
      cases hnone
    · rw [hs] at hv
      cases hv
      rw [hp] at hpv
      cases hpv
  · rcases hg.2 k hk with hnone | ⟨s, n, hs, hp⟩
    · rw [hv] at hnone
      cases hnone
    · rw [hs] at hv
      cases hv
      rw [hp] at hpv
      cases hpv

end LLC

namespace LLC

/-- C9, counterexample: a `/api/data/slice` request whose four lat/lon
parameters are present and float-parseable can still hit a failure during
handling that is *not* a parameter-parse failure — here the Region
Translator's empty-region `ValueError` — and the handler answers
HTTP 400 (`"Invalid parameter: …"`), not HTTP 500 as the claim's
"any other failure → 500" clause requires. -/
theorem c9_error_status_cex :
    parseSliceArgs [("lat_min", "1"), ("lat_max", "2"), ("lon_min", "1"), ("lon_max", "2")] =
      .ok { field := "salinity", timestep := 0, depth_level := 0, quality := -12,
            format_type := "array", lat_range := (1, 2), lon_range := (1, 2) } ∧
    get_data_slice testRead latPoint lonPoint "salinity" 0 0 (1, 2) (1, 2) (-12) "array" =
      .error (.valueError "No data found in the given lat/lon range.") ∧
    sliceHandler testRead latPoint lonPoint
        [("lat_min", "1"), ("lat_max", "2"), ("lon_min", "1"), ("lon_max", "2")] =
      (400, Sum.inr "Invalid parameter: No data found in the given lat/lon range.") :=
  ⟨rfl, rfl, rfl⟩

end LLC

namespace LLC

/-- C9, amended: a request with a required lat/lon parameter missing or
not float-parseable (or an integer parameter not int-parseable) gets
HTTP 400 with an error beginning `"Invalid parameter: "` — and so does
any `ValueError`/`TypeError` raised later during handling (unknown
field, empty region); any *other* failure (e.g. the wrapped read
`RuntimeError`) gets HTTP 500 with the error message as the body's
error field. Both `/api/data/slice` and `/api/data/timestep` behave this
way. -/
theorem c9_error_status_amended (read : String → ReadCall → Except String NDArray)
    (latc lonc : Grid) (argsA argsB argsC argsD : List (String × String))
    (pB : SliceParams) (eB : PyError) (pD : TimestepParams) (eD : PyError)
    (hA : sliceParamBad argsA)
    (hB : parseSliceArgs argsB = .ok pB)
    (hBe : get_data_slice read latc lonc pB.field pB.timestep pB.depth_level
      pB.lat_range pB.lon_range pB.quality pB.format_type = .error eB)
    (hC : timestepParamBad argsC)
    (hD : parseTimestepArgs argsD = .ok pD)
    (hDe : get_timestep_data read latc lonc pD.field pD.timestep pD.lat_range
      pD.lon_range pD.z_range pD.quality pD.format_type = .error eD) :
    (∃ msg, sliceHandler read latc lonc argsA =
      (400, Sum.inr ("Invalid parameter: " ++ msg))) ∧
    sliceHandler read latc lonc argsB =
      (if eB.isValueOrType then (400, Sum.inr ("Invalid parameter: " ++ eB.msg))
       else (500, Sum.inr eB.msg)) ∧
    (∃ msg, timestepHandler read latc lonc argsC =
      (400, Sum.inr ("Invalid parameter: " ++ msg))) ∧
    timestepHandler read latc lonc argsD =
      (if eD.isValueOrType then (400, Sum.inr ("Invalid parameter: " ++ eD.msg))
       else (500, Sum.inr eD.msg)) := by
  refine ⟨?_, ?_, ?_, ?_⟩
  · rcases parseSliceArgs_spec argsA with ⟨e, he, hvt⟩ | ⟨p, hp, hgood⟩
    · refine ⟨e.msg, ?_⟩
      unfold sliceHandler
      simp only [he, error_bind, runHandler, hvt, if_true]
    · exact (slice_not_bad_of_good argsA hgood hA).elim
  · unfold sliceHandler
    simp only [hB, ok_bind]
    rw [hBe]
    rfl
  · rcases parseTimestepArgs_spec argsC with ⟨e, he, hvt⟩ | ⟨p, hp, hgood⟩
    · refine ⟨e.msg, ?_⟩
      unfold timestepHandler
      simp only [he, error_bind, runHandler, hvt, if_true]
    · exact (timestep_not_bad_of_good argsC hgood hC).elim
  · unfold timestepHandler
    simp only [hD, ok_bind]
    rw [hDe]
    rfl

end LLC

namespace LLC

/-- Witness for C9 (amended): missing parameters give 400 on both
routes; a wrapped read failure (RuntimeError, not a
ValueError/TypeError) gives 500 on both routes. -/
theorem c9_error_status_amended_witness :
    sliceParamBad [] ∧
    timestepParamBad [] ∧
    parseSliceArgs [("lat_min", "2"), ("lat_max", "3"), ("lon_min", "2"), ("lon_max", "3")] =
      .ok { field := "salinity", timestep := 0, depth_level := 0, quality := -12,
            format_type := "array", lat_range := (2, 3), lon_range := (2, 3) } ∧
    ((∃ msg, sliceHandler testReadFail latC2 lonC2 [] =
       (400, Sum.inr ("Invalid parameter: " ++ msg))) ∧
     sliceHandler testReadFail latC2 lonC2
         [("lat_min", "2"), ("lat_max", "3"), ("lon_min", "2"), ("lon_max", "3")] =
       (if (PyError.runtimeError "Failed to read data at timestep 0: boom").isValueOrType then
          (400, Sum.inr ("Invalid parameter: " ++
            (PyError.runtimeError "Failed to read data at timestep 0: boom").msg))
        else (500, Sum.inr (PyError.runtimeError "Failed to read data at timestep 0: boom").msg)) ∧
     (∃ msg, timestepHandler testReadFail latC2 lonC2 [] =
       (400, Sum.inr ("Invalid parameter: " ++ msg))) ∧
     timestepHandler testReadFail latC2 lonC2
         [("lat_min", "2"), ("lat_max", "3"), ("lon_min", "2"), ("lon_max", "3")] =
       (if (PyError.runtimeError "Failed to read data at timestep 0: boom").isValueOrType then
          (400, Sum.inr ("Invalid parameter: " ++
            (PyError.runtimeError "Failed to read data at timestep 0: boom").msg))
        else (500, Sum.inr (PyError.runtimeError "Failed to read data at timestep 0: boom").msg))) :=
  ⟨Or.inl ⟨"lat_min", by simp, Or.inl rfl⟩,
   Or.inl ⟨"lat_min", by simp, Or.inl rfl⟩,
   rfl,
   c9_error_status_amended testReadFail latC2 lonC2 []
     [("lat_min", "2"), ("lat_max", "3"), ("lon_min", "2"), ("lon_max", "3")] []
     [("lat_min", "2"), ("lat_max", "3"), ("lon_min", "2"), ("lon_max", "3")]
     { field := "salinity", timestep := 0, depth_level := 0, quality := -12,
       format_type := "array", lat_range := (2, 3), lon_range := (2, 3) }
     (PyError.runtimeError "Failed to read data at timestep 0: boom")
     { field := "salinity", timestep := 0, z_range := (0, 1), quality := -12,
       format_type := "array", lat_range := (2, 3), lon_range := (2, 3) }
     (PyError.runtimeError "Failed to read data at timestep 0: boom")
     (Or.inl ⟨"lat_min", by simp, Or.inl rfl⟩) rfl rfl
     (Or.inl ⟨"lat_min", by simp, Or.inl rfl⟩) rfl rfl⟩

end LLC

namespace LLC

/-- Witness for C3 at the concrete grids, box `[2,3] × [2,3]`, with the
matching cell `(0, 1)`. -/
theorem c3_minimal_rectangle_witness :
    0 < latC2.length ∧ 1 < (latC2.getD 0 []).length ∧
    maskAt latC2 lonC2 (2, 3) (2, 3) 0 1 = true ∧
    (∃ r, extractRegionRect latC2 lonC2 (2, 3) (2, 3) = .ok r ∧
      (∀ i j, (i, j) ∈ maskIndices latC2 lonC2 (2, 3) (2, 3) →
        r.yMin ≤ i ∧ i + 1 ≤ r.yMax ∧ r.xMin ≤ j ∧ j + 1 ≤ r.xMax) ∧
      (∃ j, (r.yMin, j) ∈ maskIndices latC2 lonC2 (2, 3) (2, 3)) ∧
      (∃ j, (r.yMax - 1, j) ∈ maskIndices latC2 lonC2 (2, 3) (2, 3)) ∧
      (∃ i, (i, r.xMin) ∈ maskIndices latC2 lonC2 (2, 3) (2, 3)) ∧
      (∃ i, (i, r.xMax - 1) ∈ maskIndices latC2 lonC2 (2, 3) (2, 3))) :=
  ⟨by decide, by decide, by decide,
   c3_minimal_rectangle latC2 lonC2 (2, 3) (2, 3) 0 1 (by decide) (by decide) (by decide)⟩

end LLC
